import Mathlib

/-!
Shallow embedding of the Canvas-2D rendering context core
(src/native/src/context/mod.rs) and proofs about it.

Conventions of the embedding:
* `f32`/`f64` scalars are modelled as `ℚ`.
* Skia `Color` is ARGB bytes; `Color4f` round-trips are modelled by exact
  rational arithmetic followed by round-to-nearest-byte with clamping,
  matching `Color4f::to_color`.
* External collaborators (skia image filters, font matching, paragraph
  layout) are passed in as explicit function parameters (oracles): the
  source consumes them as opaque capabilities.
* Backend draw calls are modelled as an emitted list of `DrawEvent`s.
* `Vec<State>` push/pop at the end is modelled by a Lean list with the top
  of the stack at the head; only push/pop order matters.
-/

/-- Skia paint style: fill or stroke. -/
inductive PaintStyle where
  | fill
  | stroke
deriving DecidableEq, Repr

/-- Skia blend modes used by this file (`SrcOver` default, `Clear` for clearRect). -/
inductive BlendMode where
  | srcOver
  | clear
  | multiply
  | screen
deriving DecidableEq, Repr

/-- Skia filter quality levels. -/
inductive FilterQuality where
  | none
  | low
  | medium
  | high
deriving DecidableEq, Repr

/-- ARGB color with byte channels, as in skia `Color`. -/
structure Color where
  r : ℕ
  g : ℕ
  b : ℕ
  a : ℕ
deriving DecidableEq, Repr

def BLACK : Color := ⟨0, 0, 0, 255⟩

def TRANSPARENT : Color := ⟨0, 0, 0, 0⟩

def GALLEY : ℚ := 100000

/-- A 2-d point with rational coordinates. -/
structure Point where
  x : ℚ
  y : ℚ
deriving DecidableEq, Repr

/-- Skia `Point::is_zero`: both coordinates are zero. -/
def Point.is_zero (p : Point) : Bool :=
  p.x == 0 && p.y == 0

/-- Axis-aligned rectangle, as skia `Rect`. -/
structure Rect where
  left : ℚ
  top : ℚ
  right : ℚ
  bottom : ℚ
deriving DecidableEq, Repr

/-- Skia `Rect::from_size` over the size of a rectangle: same extents anchored at the origin. -/
def Rect.from_size (r : Rect) : Rect :=
  ⟨0, 0, r.right - r.left, r.bottom - r.top⟩

/-- Opaque shader capability produced by gradients and patterns. -/
structure Shader where
  id : ℕ
deriving DecidableEq, Repr

/-- External gradient object; the core only needs its shader. -/
structure CanvasGradient where
  shader : Shader
deriving DecidableEq, Repr

/-- External pattern object; the core only needs its shader. -/
structure CanvasPattern where
  shader : Shader
deriving DecidableEq, Repr

/-- Opaque skia image filter handle (drop shadow, crop/resize). -/
structure ImageFilter where
  id : ℕ
deriving DecidableEq, Repr

/-- Dash path effect: interval list plus phase, as `dash_path_effect::new`. -/
structure DashEffect where
  intervals : List ℚ
  phase : ℚ
deriving DecidableEq, Repr

/-- Skia paint: the fields this file reads or writes. -/
structure Paint where
  style : PaintStyle
  color : Color
  shader : Option Shader
  path_effect : Option DashEffect
  image_filter : Option ImageFilter
  anti_alias : Bool
  stroke_width : ℚ
  stroke_miter : ℚ
  filter_quality : FilterQuality
  blend_mode : BlendMode
deriving DecidableEq, Repr

/-- Skia `Paint::default()`: black fill, no effects, srcOver. -/
def Paint.default : Paint :=
  { style := .fill
    color := BLACK
    shader := none
    path_effect := none
    image_filter := none
    anti_alias := false
    stroke_width := 0
    stroke_miter := 4
    filter_quality := .none
    blend_mode := .srcOver }

/-- Path fill rules used by `clip_path`. -/
inductive FillType where
  | winding
  | evenOdd
deriving DecidableEq, Repr

/-- The current accumulated vector path: fill rule plus construction data. -/
structure SkPath where
  fill_type : FillType
  verbs : List (ℚ × ℚ)
deriving DecidableEq, Repr

/-- Skia `Path::new()`: empty path, winding fill. -/
def SkPath.new : SkPath := ⟨.winding, []⟩

/-- Opaque image: the core only needs its bounds and an id. -/
structure Image where
  bounds : Rect
  id : ℕ
deriving DecidableEq, Repr

/-- Font style triple (weight, width, slant) as skia `FontStyle`. -/
structure FontStyle where
  weight : ℤ
  width : ℤ
  slant : ℤ
deriving DecidableEq, Repr

/-- Text shadow attached to a character style. -/
structure TextShadow where
  color : Color
  offset : Point
  sigma : ℚ
deriving DecidableEq, Repr

/-- Character-level text style: the fields this file reads or writes. -/
structure TextStyle where
  font_size : ℚ
  font_style : FontStyle
  font_families : List String
  features : List (String × ℤ)
  foreground : Option Paint
  shadows : List TextShadow
deriving DecidableEq, Repr

/-- Skia `TextStyle::new()` defaults (font size 14, upright 400 weight, nothing attached). -/
def TextStyle.new : TextStyle :=
  { font_size := 14
    font_style := ⟨400, 5, 0⟩
    font_families := []
    features := []
    foreground := none
    shadows := [] }

/-- Paragraph text alignment. -/
inductive TextAlign where
  | left
  | right
  | center
  | justify
  | start
  | alignEnd
deriving DecidableEq, Repr

/-- Paragraph text direction. -/
inductive TextDirection where
  | ltr
  | rtl
deriving DecidableEq, Repr

/-- Paragraph-level style. -/
structure ParagraphStyle where
  text_align : TextAlign
  text_direction : TextDirection
deriving DecidableEq, Repr

/-- Modelled from the spec: the Baseline enum lives in src/utils.rs, which is
absent from src/; the glossary lists the recognized text-baseline modes
(alphabetic, hanging, ideographic, etc.). -/
inductive Baseline where
  | top
  | hanging
  | middle
  | alphabetic
  | ideographic
  | bottom
deriving DecidableEq, Repr

/-- Font metrics read from a character style (ascent is negative-up, as in skia). -/
structure FontMetrics where
  ascent : ℚ
  descent : ℚ
deriving DecidableEq, Repr

/-- A paint source: flat color, gradient, or pattern. -/
inductive Dye where
  | color (c : Color)
  | gradient (g : CanvasGradient)
  | pattern (p : CanvasPattern)
deriving DecidableEq, Repr

/-- The per-context style snapshot (`State` in the source). -/
structure State where
  paint : Paint
  fill_style : Dye
  stroke_style : Dye
  shadow_blur : ℚ
  shadow_color : Color
  shadow_offset : Point
  global_alpha : ℚ
  stroke_width : ℚ
  line_dash_offset : ℚ
  line_dash_list : List ℚ
  global_composite_operation : BlendMode
  image_filter_quality : FilterQuality
  image_smoothing_enabled : Bool
  font : String
  font_variant : String
  font_features : List String
  char_style : TextStyle
  graf_style : ParagraphStyle
  text_baseline : Baseline
  text_tracking : ℤ
deriving DecidableEq, Repr

/-- Backend drawing surface handle; its presence is what the drawing
operations branch on (its raster contents are backend-internal). -/
structure Surface where
  id : ℕ
deriving DecidableEq, Repr

/-- The rendering context: optional surface, current path, state stack, live state. -/
structure Context2D where
  surface : Option Surface
  path : SkPath
  state_stack : List State
  state : State
deriving DecidableEq, Repr

/-- Backend draw calls issued against the surface's canvas, in order. -/
inductive DrawEvent where
  | path (p : SkPath) (paint : Paint)
  | rect (r : Rect) (paint : Paint)
  | image (img : Image) (origin : Point) (paint : Paint)
  | imageRect (img : Image) (src : Rect) (dst : Rect) (paint : Paint)
  | clip (p : SkPath) (antialias : Bool)
  | canvasSave
  | canvasRestore
  | resetMatrix
  | paragraph (style : TextStyle) (text : String) (origin : Point)
deriving DecidableEq, Repr

/-- `Context2D::new()`: default paint (miter 10, black, antialiased, width 1,
low filter quality), empty path, empty stack, default state. -/
def Context2D.new : Context2D :=
  let paint : Paint :=
    { Paint.default with
        stroke_miter := 10
        color := BLACK
        anti_alias := true
        stroke_width := 1
        filter_quality := .low }
  let char_style : TextStyle := { TextStyle.new with font_size := 10 }
  let graf_style : ParagraphStyle := ⟨.start, .ltr⟩
  { surface := none
    path := SkPath.new
    state_stack := []
    state :=
      { paint := paint
        stroke_style := .color BLACK
        fill_style := .color BLACK
        stroke_width := 1
        line_dash_offset := 0
        line_dash_list := []
        global_alpha := 1
        global_composite_operation := .srcOver
        image_filter_quality := .low
        image_smoothing_enabled := true
        shadow_blur := 0
        shadow_color := TRANSPARENT
        shadow_offset := ⟨0, 0⟩
        font := "10px monospace"
        font_variant := "normal"
        font_features := []
        char_style := char_style
        graf_style := graf_style
        text_baseline := .alphabetic
        text_tracking := 0 } }

/-- Round a rational to the nearest byte, clamping to 0..255, as the
`Color4f` to `Color` conversion does for each channel. -/
def clamp_byte (x : ℚ) : ℕ :=
  min 255 (round x).toNat

/-- `Context2D::color_with_alpha`: scale the color's alpha channel by
`global_alpha` through the `Color4f` round trip; other channels round-trip
unchanged. -/
def color_with_alpha (s : State) (src : Color) : Color :=
  { src with a := clamp_byte ((src.a : ℚ) * s.global_alpha) }

/-- `Context2D::push` (save): push a clone of the live state; the backend
canvas save is a transform/clip operation and alters none of these fields. -/
def Context2D.push (ctx : Context2D) : Context2D :=
  { ctx with state_stack := ctx.state :: ctx.state_stack }

/-- `Context2D::pop` (restore): pop the most recent saved state if any;
an empty stack leaves the live state untouched. -/
def Context2D.pop (ctx : Context2D) : Context2D :=
  match ctx.state_stack with
  | [] => ctx
  | s :: rest => { ctx with state := s, state_stack := rest }

/-- A save or restore request. -/
inductive StackOp where
  | save
  | restore
deriving DecidableEq, Repr

/-- Run a sequence of save/restore calls against a context. -/
def apply_ops (ctx : Context2D) (ops : List StackOp) : Context2D :=
  ops.foldl (fun c op => match op with | .save => c.push | .restore => c.pop) ctx

/-- One step of the stack-depth evolution: save increments, restore
decrements clamped at zero. -/
def depth_step (d : ℕ) (op : StackOp) : ℕ :=
  match op with
  | .save => d + 1
  | .restore => d - 1

/-- `Context2D::paint_for_fill`: clone the base paint, set fill style,
resolve the fill dye (alpha-scaled color, or shader). -/
def paint_for_fill (s : State) : Paint :=
  let paint := { s.paint with style := PaintStyle.fill }
  match s.fill_style with
  | .color c => { paint with color := color_with_alpha s c }
  | .gradient g => { paint with shader := some g.shader }
  | .pattern p => { paint with shader := some p.shader }

/-- `Context2D::paint_for_stroke`: clone the base paint, set stroke style,
resolve the stroke dye, and, when the dash list is non-empty, hand list and
phase to the skia dash-effect constructor and install whatever it returns:
`dash_path_effect::new` returns an Option, and `set_path_effect` stores
that Option, so a rejected list leaves the paint with no path effect. The
constructor is the external parameter. -/
def paint_for_stroke (dash_path_effect_new : List ℚ → ℚ → Option DashEffect)
    (s : State) : Paint :=
  let paint := { s.paint with style := PaintStyle.stroke }
  let paint :=
    match s.stroke_style with
    | .color c => { paint with color := color_with_alpha s c }
    | .gradient g => { paint with shader := some g.shader }
    | .pattern p => { paint with shader := some p.shader }
  if s.line_dash_list.isEmpty then paint
  else { paint with path_effect := dash_path_effect_new s.line_dash_list s.line_dash_offset }

/-- `Context2D::paint_for_shadow`: when the alpha-scaled shadow color is
visible and the shadow is not a no-op (zero blur and zero offset), clone the
base paint, install the drop-shadow-only filter when its construction
succeeds, and return the clone; otherwise return none. The skia
`image_filters::drop_shadow_only` constructor is the external parameter. -/
def paint_for_shadow (drop_shadow_only : Point → ℚ × ℚ → Color → Option ImageFilter)
    (s : State) (base : Paint) : Option Paint :=
  let shadow_color := color_with_alpha s s.shadow_color
  let sigma := s.shadow_blur / 2
  if shadow_color.a > 0 ∧ ¬(s.shadow_blur = 0 ∧ s.shadow_offset.is_zero = true) then
    some (match drop_shadow_only s.shadow_offset (sigma, sigma) shadow_color with
          | some filter => { base with image_filter := some filter }
          | none => base)
  else none

/-- `Context2D::draw_path`: compute the shadow paint, then, when a surface
is attached, draw the shadow (if any) followed by the primary path; with no
surface, no draw is issued. -/
def draw_path (drop_shadow_only : Point → ℚ × ℚ → Color → Option ImageFilter)
    (ctx : Context2D) (paint : Paint) : List DrawEvent :=
  let shadow := paint_for_shadow drop_shadow_only ctx.state paint
  match ctx.surface with
  | none => []
  | some _ =>
    (match shadow with
     | some shadow_paint => [DrawEvent.path ctx.path shadow_paint]
     | none => []) ++ [DrawEvent.path ctx.path paint]

/-- `Context2D::draw_rect`: like `draw_path` for an axis-aligned rectangle. -/
def draw_rect (drop_shadow_only : Point → ℚ × ℚ → Color → Option ImageFilter)
    (ctx : Context2D) (rect : Rect) (paint : Paint) : List DrawEvent :=
  let shadow := paint_for_shadow drop_shadow_only ctx.state paint
  match ctx.surface with
  | none => []
  | some _ =>
    (match shadow with
     | some shadow_paint => [DrawEvent.rect rect shadow_paint]
     | none => []) ++ [DrawEvent.rect rect paint]

/-- `Context2D::clear_rect`: draw the rectangle with a fresh default paint
in Clear blend mode, ignoring the context style; no surface, no draw. -/
def clear_rect (ctx : Context2D) (rect : Rect) : List DrawEvent :=
  let paint := { Paint.default with style := PaintStyle.fill, blend_mode := BlendMode.clear }
  match ctx.surface with
  | none => []
  | some _ => [DrawEvent.rect rect paint]

/-- `Context2D::clip_path`: intersect the clip with the supplied path or the
current path buffer under the given fill rule, always antialiased. -/
def clip_path (ctx : Context2D) (path : Option SkPath) (rule : FillType) : List DrawEvent :=
  let clip :=
    match path with
    | some p => p
    | none => ctx.path
  let clip := { clip with fill_type := rule }
  match ctx.surface with
  | none => []
  | some _ => [DrawEvent.clip clip true]

/-- `Context2D::draw_image`: derive the fill paint (alpha-scaled black) and
its shadow, strip the destination origin, run the external crop/resize image
filter, add the reported positional correction back in, then draw shadow (if
any) and image; any external failure or a missing surface issues no draw.
`image_filters_image` models `skia image_filters::image` and
`new_with_filter` models `Image::new_with_filter`. -/
def draw_image (drop_shadow_only : Point → ℚ × ℚ → Color → Option ImageFilter)
    (image_filters_image : Image → Rect → Rect → FilterQuality → Option ImageFilter)
    (new_with_filter : Image → ImageFilter → Rect → Rect → Option (Image × Rect × Point))
    (ctx : Context2D) (img : Option Image) (src_rect dst_rect : Rect) : List DrawEvent :=
  let paint := { ctx.state.paint with
                   style := PaintStyle.fill
                   color := color_with_alpha ctx.state BLACK }
  let shadow := paint_for_shadow drop_shadow_only ctx.state paint
  match img with
  | none => []
  | some image =>
    let origin : Point := ⟨dst_rect.left, dst_rect.top⟩
    let resize := dst_rect.from_size
    let bounds := image.bounds
    match image_filters_image image src_rect resize paint.filter_quality with
    | none => []
    | some filter =>
      match new_with_filter image filter bounds bounds with
      | none => []
      | some (filtered, _, dxdy) =>
        match ctx.surface with
        | none => []
        | some _ =>
          let origin := Point.mk (origin.x + dxdy.x) (origin.y + dxdy.y)
          (match shadow with
           | some shadow_paint => [DrawEvent.image filtered origin shadow_paint]
           | none => []) ++ [DrawEvent.image filtered origin paint]

/-- `Context2D::blit_image`: untransformed, unshadowed strict rect-to-rect
copy with a default paint, wrapped in a backend save / reset-matrix /
restore; no surface or no image, no draw. -/
def blit_image (ctx : Context2D) (img : Option Image) (src_rect dst_rect : Rect) :
    List DrawEvent :=
  let paint := { Paint.default with style := PaintStyle.fill }
  match img with
  | none => []
  | some image =>
    match ctx.surface with
    | none => []
    | some _ =>
      [DrawEvent.canvasSave, DrawEvent.resetMatrix,
       DrawEvent.imageRect image src_rect dst_rect paint,
       DrawEvent.canvasRestore]

/-- The typeface handle returned by the external font-matching service. -/
structure Typeface where
  id : ℕ
deriving DecidableEq, Repr

/-- A resolved font specification, as consumed by `choose_font`
(fields inferred from their uses in this file). -/
structure FontSpec where
  families : List String
  size : ℚ
  style : FontStyle
  features : List (String × ℤ)
  variant : String
  canonical : String
deriving DecidableEq, Repr

/-- `Context2D::set_font_variant`: record the variant name, reset the
character style's feature list, then add every (tag, value) pair. -/
def set_font_variant (s : State) (variant : String) (features : List (String × ℤ)) : State :=
  { s with
      font_variant := variant
      char_style := { s.char_style with features := features } }

/-- `Context2D::choose_font`: look up typefaces for the requested families
and style via the external font-matching service; commit every font field
only when at least one typeface matches. -/
def choose_font (find_typefaces : List String → FontStyle → List Typeface)
    (s : State) (spec : FontSpec) : State :=
  let faces := find_typefaces spec.families spec.style
  if faces.isEmpty then s
  else
    set_font_variant
      { s with
          font := spec.canonical
          char_style := { s.char_style with
                            font_style := spec.style
                            font_families := spec.families
                            font_size := spec.size } }
      spec.variant spec.features

/-- `Context2D::typeset_text`, modelled up to the externally-built
paragraph: the character style it hands to the paragraph builder — a clone
of the current character style with the given paint as foreground and, when
the shadow is visible and not a no-op, an added text shadow with sigma
blur/2. -/
def typeset_text (s : State) (paint : Paint) : TextStyle :=
  let char_style := { s.char_style with foreground := some paint }
  let shadow_color := color_with_alpha s s.shadow_color
  let sigma := s.shadow_blur / 2
  if shadow_color.a > 0 ∧ ¬(s.shadow_blur = 0 ∧ s.shadow_offset.is_zero = true) then
    { char_style with shadows := char_style.shadows ++ [⟨shadow_color, s.shadow_offset, sigma⟩] }
  else char_style

/-- Modelled from the spec: `get_alignment_factor` lives in src/utils.rs,
absent from src/; the spec fixes it as 0 for start/left, 0.5 for center,
1 for end/right, consistent with the paragraph's alignment and direction. -/
def get_alignment_factor (g : ParagraphStyle) : ℚ :=
  match g.text_align with
  | .left => 0
  | .center => 1 / 2
  | .right => 1
  | .justify => 0
  | .start => match g.text_direction with | .ltr => 0 | .rtl => 1
  | .alignEnd => match g.text_direction with | .ltr => 1 | .rtl => 0

/-- `Context2D::draw_text`: typeset, compute the baseline- and
alignment-adjusted origin, then paint the paragraph — via
`self.surface.as_mut().unwrap()`, which panics (modelled as `none`) when no
surface is attached. `font_metrics_of` models `TextStyle::font_metrics`,
`baseline_offset` models `get_baseline_offset` (src/utils.rs, absent from
src/), and `alphabetic_baseline_of` models `Paragraph::alphabetic_baseline`
of the externally laid-out paragraph. -/
def draw_text (font_metrics_of : TextStyle → FontMetrics)
    (baseline_offset : FontMetrics → Baseline → ℚ)
    (alphabetic_baseline_of : ParagraphStyle → TextStyle → String → ℚ)
    (ctx : Context2D) (text : String) (x y : ℚ) (paint : Paint) :
    Option (List DrawEvent) :=
  let style := typeset_text ctx.state paint
  let metrics := font_metrics_of ctx.state.char_style
  let offset := baseline_offset metrics ctx.state.text_baseline
  let py := y + offset - alphabetic_baseline_of ctx.state.graf_style style text
  let px := x + GALLEY * get_alignment_factor ctx.state.graf_style
  match ctx.surface with
  | none => none
  | some _ => some [DrawEvent.paragraph style text ⟨px, py⟩]

/-- First-line metrics of an externally laid-out paragraph
(`LineMetrics`: width, left, ascent, descent). -/
structure LineMetrics where
  width : ℚ
  left : ℚ
  ascent : ℚ
  descent : ℚ
deriving DecidableEq, Repr

/-- The seven font-level fields of the measurement vector: computed from
the font metrics, the baseline-offset function, the configured baseline
mode, and the font size alone. -/
def font_level_fields (m : FontMetrics) (baseline_offset : FontMetrics → Baseline → ℚ)
    (b : Baseline) (em : ℚ) : List ℚ :=
  let offset := baseline_offset m b
  let font_ascent := m.ascent + offset
  let font_descent := m.descent + offset
  [-font_ascent, font_descent, em - font_descent, font_descent,
   offset - baseline_offset m .hanging,
   offset - baseline_offset m .alphabetic,
   offset - baseline_offset m .ideographic]

/-- `Context2D::measure_text`: resolve the fill paint, typeset, then build
the 12-field measurement vector; the first five fields come from the first
line's metrics when the external layout produces one and are zero
otherwise. `line_metrics_of` models `Paragraph::get_line_metrics().first()`
of the externally laid-out paragraph. -/
def measure_text (font_metrics_of : TextStyle → FontMetrics)
    (baseline_offset : FontMetrics → Baseline → ℚ)
    (line_metrics_of : ParagraphStyle → TextStyle → String → Option LineMetrics)
    (s : State) (text : String) : List ℚ :=
  let paint := paint_for_fill s
  let style := typeset_text s paint
  let m := font_metrics_of s.char_style
  let offset := baseline_offset m s.text_baseline
  let line_fields :=
    match line_metrics_of s.graf_style style text with
    | some line =>
      [line.width, line.left, line.width - line.left,
       line.ascent - offset, line.descent + offset]
    | none => [0, 0, 0, 0, 0]
  line_fields ++ font_level_fields m baseline_offset s.text_baseline s.char_style.font_size

/-! Concrete fixtures used by closed theorems and witnesses. -/

/-- A drop-shadow-filter constructor that always fails. -/
def no_shadow_oracle : Point → ℚ × ℚ → Color → Option ImageFilter := fun _ _ _ => none

/-- A default paint value used as primary paint in examples. -/
def p0 : Paint := Paint.default

/-- A sample rectangle. -/
def r0 : Rect := ⟨0, 0, 10, 10⟩

/-- A sample image with 4x4 bounds. -/
def img0 : Image := ⟨⟨0, 0, 4, 4⟩, 0⟩

/-- A crop/resize image-filter constructor that always succeeds. -/
def ifi0 : Image → Rect → Rect → FilterQuality → Option ImageFilter := fun _ _ _ _ => some ⟨2⟩

/-- A filtered-image constructor that always succeeds with no positional correction. -/
def nwf0 : Image → ImageFilter → Rect → Rect → Option (Image × Rect × Point) :=
  fun i _ _ _ => some (i, ⟨0, 0, 4, 4⟩, ⟨0, 0⟩)

/-- Sample font metrics (ascent negative-up, as in skia). -/
def fm0 : TextStyle → FontMetrics := fun _ => ⟨-8, 2⟩

/-- A sample baseline-offset function. -/
def bo0 : FontMetrics → Baseline → ℚ :=
  fun m b =>
    match b with
    | .alphabetic => 0
    | .hanging => -m.ascent * 4 / 5
    | .ideographic => m.descent
    | _ => 0

/-- A sample alphabetic-baseline reading of the laid-out paragraph. -/
def ab0 : ParagraphStyle → TextStyle → String → ℚ := fun _ _ _ => 8

/-- A paragraph layout that produces no line metrics (as for empty text). -/
def lm_none : ParagraphStyle → TextStyle → String → Option LineMetrics := fun _ _ _ => none

/-- A state whose shadow is visible: opaque shadow color, offset (5,5), zero blur. -/
def shadow_state : State :=
  { Context2D.new.state with shadow_color := ⟨0, 0, 0, 255⟩, shadow_offset := ⟨5, 5⟩ }

/-- A fresh context with a surface attached. -/
def ctx_with_surface : Context2D := { Context2D.new with surface := some ⟨0⟩ }

/-- A context with a surface and a visible shadow configuration. -/
def shadow_ctx : Context2D := { ctx_with_surface with state := shadow_state }

/-- A state whose fill dye is a gradient, with global alpha one half. -/
def grad_state : State :=
  { Context2D.new.state with fill_style := Dye.gradient ⟨⟨7⟩⟩, global_alpha := 1 / 2 }

/-- A half-opaque red color. -/
def cred : Color := ⟨255, 0, 0, 128⟩

/-- A state whose fill and stroke dyes are flat red, with global alpha one half. -/
def color_state : State :=
  { Context2D.new.state with
      fill_style := Dye.color cred
      stroke_style := Dye.color cred
      global_alpha := 1 / 2 }

/-- A state with a non-empty line dash list. -/
def dash_state : State := { Context2D.new.state with line_dash_list := [1, 2] }

/-- The behavior skia documents for SkDashPathEffect::Make, used to
instantiate the dash-constructor oracle: the constructor succeeds only when
the interval count is even and at least two, every interval is
non-negative, and at least one interval is positive; otherwise it returns
nothing. -/
def dash_path_effect_skia (intervals : List ℚ) (phase : ℚ) : Option DashEffect :=
  if 2 ≤ intervals.length ∧ intervals.length % 2 = 0
      ∧ intervals.all (fun d => 0 ≤ d) = true
      ∧ intervals.any (fun d => 0 < d) = true then
    some ⟨intervals, phase⟩
  else none

/-- A state whose dash list [0, 0] is non-empty but rejected by skia. -/
def zero_dash_state : State := { Context2D.new.state with line_dash_list := [0, 0] }

/-- A font lookup that finds one typeface. -/
def face_find : List String → FontStyle → List Typeface := fun _ _ => [⟨0⟩]

/-- A font lookup that finds nothing. -/
def no_find : List String → FontStyle → List Typeface := fun _ _ => []

/-- A sample font specification. -/
def spec0 : FontSpec :=
  ⟨["Avenir"], 12, ⟨700, 5, 0⟩, [("liga", 1)], "small-caps", "12px Avenir"⟩

/-! Theorems settling the claims. -/

/-- C1: with no backend surface attached, draw_path, draw_rect, clear_rect,
clip_path, draw_image and blit_image all complete as silent no-ops issuing
no backend draw, but draw_text does not: it unwraps the absent surface and
panics (modelled as returning none), contradicting the claim that every
drawing operation silently no-ops. -/
theorem c1_missing_surface_draw_text_panics :
  draw_path no_shadow_oracle Context2D.new p0 = [] ∧
  draw_rect no_shadow_oracle Context2D.new r0 p0 = [] ∧
  clear_rect Context2D.new r0 = [] ∧
  clip_path Context2D.new none FillType.winding = [] ∧
  draw_image no_shadow_oracle ifi0 nwf0 Context2D.new (some img0) r0 r0 = [] ∧
  blit_image Context2D.new (some img0) r0 r0 = [] ∧
  draw_text fm0 bo0 ab0 Context2D.new "A" 0 0 p0 = none :=
⟨rfl, rfl, rfl, rfl, rfl, rfl, rfl⟩

/-- C2 counterexample: with a gradient fill dye, resolving under
global_alpha one half yields exactly the same paint as resolving under
global_alpha one — the resolved alpha is not multiplied by global_alpha for
the Gradient variant, so the claim fails as stated for every Dye variant. -/
theorem c2_counterexample :
  paint_for_fill grad_state = paint_for_fill { grad_state with global_alpha := 1 } ∧
  (paint_for_fill grad_state).color.a = 255 :=
⟨rfl, rfl⟩

/-- C2 amended: for the Color variant, fill and stroke resolution scale the
dye color's alpha by global_alpha at resolution time (and the stored dye,
read immutably, is untouched); for the Gradient and Pattern variants the
resolved paint is independent of global_alpha — the shader is installed
with no alpha scaling. -/
theorem c2_amended (dpe : List ℚ → ℚ → Option DashEffect) (s : State) (c : Color)
    (g : CanvasGradient) (p : CanvasPattern) (a1 a2 : ℚ) :
  (s.fill_style = Dye.color c → (paint_for_fill s).color = color_with_alpha s c) ∧
  (s.stroke_style = Dye.color c → (paint_for_stroke dpe s).color = color_with_alpha s c) ∧
  (s.fill_style = Dye.gradient g →
    paint_for_fill { s with global_alpha := a1 } = paint_for_fill { s with global_alpha := a2 }) ∧
  (s.fill_style = Dye.pattern p →
    paint_for_fill { s with global_alpha := a1 } = paint_for_fill { s with global_alpha := a2 }) ∧
  (s.stroke_style = Dye.gradient g →
    paint_for_stroke dpe { s with global_alpha := a1 }
      = paint_for_stroke dpe { s with global_alpha := a2 }) ∧
  (s.stroke_style = Dye.pattern p →
    paint_for_stroke dpe { s with global_alpha := a1 }
      = paint_for_stroke dpe { s with global_alpha := a2 }) := by
  refine ⟨?_, ?_, ?_, ?_, ?_, ?_⟩
  · intro h
    simp only [paint_for_fill, h]
  · intro h
    simp only [paint_for_stroke, h]
    by_cases hd : s.line_dash_list.isEmpty <;> simp [hd]
  · intro h
    simp only [paint_for_fill, h]
  · intro h
    simp only [paint_for_fill, h]
  · intro h
    simp only [paint_for_stroke, h]
  · intro h
    simp only [paint_for_stroke, h]

/-- C2 amended, witness at concrete inputs. -/
theorem c2_amended_witness :
  (paint_for_fill color_state).color = color_with_alpha color_state cred ∧
  paint_for_fill { grad_state with global_alpha := 0 }
    = paint_for_fill { grad_state with global_alpha := 1 } :=
⟨(c2_amended dash_path_effect_skia color_state cred ⟨⟨7⟩⟩ ⟨⟨7⟩⟩ 0 1).1 rfl,
 (c2_amended dash_path_effect_skia grad_state cred ⟨⟨7⟩⟩ ⟨⟨7⟩⟩ 0 1).2.2.1 rfl⟩

/-- C3: paint_for_shadow returns some paint exactly when the shadow color's
alpha after global-alpha scaling is positive and the shadow is not a no-op
(zero blur with zero offset); otherwise it returns none. -/
theorem c3_shadow_paint_iff (dso : Point → ℚ × ℚ → Color → Option ImageFilter)
    (s : State) (base : Paint) :
  (paint_for_shadow dso s base).isSome = true ↔
    ((color_with_alpha s s.shadow_color).a > 0 ∧
      ¬(s.shadow_blur = 0 ∧ s.shadow_offset.is_zero = true)) := by
  by_cases h : (color_with_alpha s s.shadow_color).a > 0 ∧
      ¬(s.shadow_blur = 0 ∧ s.shadow_offset.is_zero = true)
  · simp [paint_for_shadow, h]
  · simp [paint_for_shadow, h]

/-- C4: with a surface attached, when a shadow paint is produced draw_path
and draw_rect issue exactly two backend draws, shadow first then the
primary draw of the same geometry; when none is produced they issue exactly
the one primary draw. -/
theorem c4_shadow_then_primary (dso : Point → ℚ × ℚ → Color → Option ImageFilter)
    (ctx : Context2D) (rect : Rect) (paint sp : Paint)
    (h : ctx.surface.isSome = true) :
  (paint_for_shadow dso ctx.state paint = some sp →
    draw_path dso ctx paint = [DrawEvent.path ctx.path sp, DrawEvent.path ctx.path paint] ∧
    draw_rect dso ctx rect paint = [DrawEvent.rect rect sp, DrawEvent.rect rect paint]) ∧
  (paint_for_shadow dso ctx.state paint = none →
    draw_path dso ctx paint = [DrawEvent.path ctx.path paint] ∧
    draw_rect dso ctx rect paint = [DrawEvent.rect rect paint]) := by
  cases hs : ctx.surface with
  | none => rw [hs] at h; simp at h
  | some surf =>
    constructor
    · intro hsp
      exact ⟨by simp [draw_path, hs, hsp], by simp [draw_rect, hs, hsp]⟩
    · intro hsp
      exact ⟨by simp [draw_path, hs, hsp], by simp [draw_rect, hs, hsp]⟩

/-- The shadow of shadow_state is visible: its alpha-scaled color is opaque
and its offset is non-zero. -/
theorem shadow_state_visible :
    (color_with_alpha shadow_state shadow_state.shadow_color).a > 0 ∧
    ¬(shadow_state.shadow_blur = 0 ∧ shadow_state.shadow_offset.is_zero = true) := by
  constructor
  · simp only [shadow_state, color_with_alpha, clamp_byte]
    norm_num [Context2D.new, round_eq]
  · simp [shadow_state, Point.is_zero, Context2D.new]

/-- On shadow_state with a failing drop-shadow constructor, the shadow
paint is the unmodified base paint. -/
theorem shadow_paint_of_shadow_state :
    paint_for_shadow no_shadow_oracle shadow_state p0 = some p0 := by
  simp [paint_for_shadow, no_shadow_oracle, shadow_state_visible.1, shadow_state_visible.2]

/-- On the fresh state the shadow color is transparent, so no shadow paint
is produced. -/
theorem transparent_shadow_none (base : Paint) :
    paint_for_shadow no_shadow_oracle Context2D.new.state base = none := by
  have ha : (color_with_alpha Context2D.new.state Context2D.new.state.shadow_color).a = 0 := by
    simp only [color_with_alpha, clamp_byte]
    norm_num [Context2D.new, TRANSPARENT, round_eq]
  simp [paint_for_shadow, ha]

/-- C4, witness: a visible-shadow context yields exactly the shadow draw
then the primary draw; a fresh (transparent-shadow) context yields exactly
the primary draw. -/
theorem c4_witness :
  (draw_path no_shadow_oracle shadow_ctx p0
      = [DrawEvent.path shadow_ctx.path p0, DrawEvent.path shadow_ctx.path p0] ∧
   draw_rect no_shadow_oracle shadow_ctx r0 p0
      = [DrawEvent.rect r0 p0, DrawEvent.rect r0 p0]) ∧
  (draw_path no_shadow_oracle ctx_with_surface p0
      = [DrawEvent.path ctx_with_surface.path p0] ∧
   draw_rect no_shadow_oracle ctx_with_surface r0 p0
      = [DrawEvent.rect r0 p0]) :=
⟨(c4_shadow_then_primary no_shadow_oracle shadow_ctx r0 p0 p0 rfl).1
    shadow_paint_of_shadow_state,
 (c4_shadow_then_primary no_shadow_oracle ctx_with_surface r0 p0 p0 rfl).2
    (transparent_shadow_none p0)⟩

/-- C5: choose_font commits every font field of State exactly when the
external lookup finds at least one typeface, and leaves the state entirely
unchanged when the lookup comes back empty. -/
theorem c5_choose_font (find_typefaces : List String → FontStyle → List Typeface)
    (s : State) (spec : FontSpec) :
  (find_typefaces spec.families spec.style = [] → choose_font find_typefaces s spec = s) ∧
  (find_typefaces spec.families spec.style ≠ [] →
    choose_font find_typefaces s spec =
      { s with
          font := spec.canonical
          font_variant := spec.variant
          char_style := { s.char_style with
                            font_style := spec.style
                            font_families := spec.families
                            font_size := spec.size
                            features := spec.features } }) := by
  constructor
  · intro h
    simp [choose_font, h]
  · intro h
    cases hf : find_typefaces spec.families spec.style with
    | nil => exact absurd hf h
    | cons f fs => simp [choose_font, set_font_variant, hf]

/-- C5, witness: an empty lookup leaves the fresh state unchanged; a
one-typeface lookup commits every font field of the sample spec. -/
theorem c5_witness :
  choose_font no_find Context2D.new.state spec0 = Context2D.new.state ∧
  choose_font face_find Context2D.new.state spec0 =
    { Context2D.new.state with
        font := spec0.canonical
        font_variant := spec0.variant
        char_style := { Context2D.new.state.char_style with
                          font_style := spec0.style
                          font_families := spec0.families
                          font_size := spec0.size
                          features := spec0.features } } :=
⟨(c5_choose_font no_find Context2D.new.state spec0).1 rfl,
 (c5_choose_font face_find Context2D.new.state spec0).2 (by simp [face_find])⟩

/-- C6 counterexample: for the sequence restore-then-save from a fresh
context (one save, one restore), the stack depth is 1, not
max 0 (1 - 1) = 0: the clamp engages mid-sequence, so depth is not a
function of the save and restore counts alone. -/
theorem c6_counterexample :
  ¬((apply_ops Context2D.new [StackOp.restore, StackOp.save]).state_stack.length
      = max 0 (1 - 1)) := by
  have h : (apply_ops Context2D.new [StackOp.restore, StackOp.save]).state_stack.length = 1 :=
    rfl
  rw [h]
  decide

/-- The state-stack depth evolves by the clamped fold: each save increments
it and each restore decrements it, clamped at zero. -/
theorem apply_ops_stack_length (ops : List StackOp) (ctx : Context2D) :
    (apply_ops ctx ops).state_stack.length = ops.foldl depth_step ctx.state_stack.length := by
  induction ops generalizing ctx with
  | nil => rfl
  | cons op rest ih =>
    cases op with
    | save =>
      show (apply_ops ctx.push rest).state_stack.length
          = rest.foldl depth_step (ctx.state_stack.length + 1)
      rw [ih]
      rfl
    | restore =>
      show (apply_ops ctx.pop rest).state_stack.length
          = rest.foldl depth_step (ctx.state_stack.length - 1)
      rw [ih]
      congr 1
      cases h : ctx.state_stack with
      | nil => simp [Context2D.pop, h]
      | cons a t => simp [Context2D.pop, h]

/-- C6 amended: from a fresh (empty-stack) context the depth after any
save/restore sequence is the left fold that increments on save and
decrements clamped at zero on restore (this equals max 0 (saves - restores)
whenever no prefix restores more than it has saved); and a restore on an
empty stack is a total no-op that leaves the current State unchanged. -/
theorem c6_amended (ops : List StackOp) (ctx : Context2D) (h : ctx.state_stack = []) :
  (apply_ops ctx ops).state_stack.length = ops.foldl depth_step 0 ∧
  Context2D.pop ctx = ctx ∧ (Context2D.pop ctx).state = ctx.state := by
  refine ⟨?_, ?_, ?_⟩
  · rw [apply_ops_stack_length, h]
    rfl
  · simp [Context2D.pop, h]
  · simp [Context2D.pop, h]

/-- C6 amended, witness on the sequence save, save, restore from a fresh
context. -/
theorem c6_witness :
  (apply_ops Context2D.new [StackOp.save, StackOp.save, StackOp.restore]).state_stack.length
    = [StackOp.save, StackOp.save, StackOp.restore].foldl depth_step 0 ∧
  Context2D.pop Context2D.new = Context2D.new ∧
  (Context2D.pop Context2D.new).state = Context2D.new.state :=
c6_amended [StackOp.save, StackOp.save, StackOp.restore] Context2D.new rfl

/-- C7: the current path buffer is untouched by any sequence of save and
restore calls. -/
theorem c7_path_survives_save_restore (ops : List StackOp) (ctx : Context2D) :
    (apply_ops ctx ops).path = ctx.path := by
  induction ops generalizing ctx with
  | nil => rfl
  | cons op rest ih =>
    cases op with
    | save =>
      show (apply_ops ctx.push rest).path = ctx.path
      rw [ih]
      rfl
    | restore =>
      show (apply_ops ctx.pop rest).path = ctx.path
      rw [ih]
      cases h : ctx.state_stack with
      | nil => simp [Context2D.pop, h]
      | cons a t => simp [Context2D.pop, h]

/-- C8: measure_text always returns twelve fields, and when the layout
produces no line metrics the first five are exactly zero while the
remaining seven are the font-level fields computed from the font metrics,
the baseline-offset function, the baseline mode, and the font size alone. -/
theorem c8_measure_text (font_metrics_of : TextStyle → FontMetrics)
    (baseline_offset : FontMetrics → Baseline → ℚ)
    (line_metrics_of : ParagraphStyle → TextStyle → String → Option LineMetrics)
    (s : State) (text : String) :
  (measure_text font_metrics_of baseline_offset line_metrics_of s text).length = 12 ∧
  (line_metrics_of s.graf_style (typeset_text s (paint_for_fill s)) text = none →
    measure_text font_metrics_of baseline_offset line_metrics_of s text =
      [0, 0, 0, 0, 0] ++
        font_level_fields (font_metrics_of s.char_style) baseline_offset
          s.text_baseline s.char_style.font_size) := by
  constructor
  · unfold measure_text
    cases h : line_metrics_of s.graf_style (typeset_text s (paint_for_fill s)) text with
    | none => simp [h, font_level_fields]
    | some line => simp [h, font_level_fields]
  · intro h
    simp [measure_text, h]

/-- C8, witness: measuring empty text on the fresh state with a layout that
yields no line metrics. -/
theorem c8_witness :
  (measure_text fm0 bo0 lm_none Context2D.new.state "").length = 12 ∧
  measure_text fm0 bo0 lm_none Context2D.new.state "" =
    [0, 0, 0, 0, 0] ++
      font_level_fields (fm0 Context2D.new.state.char_style) bo0
        Context2D.new.state.text_baseline Context2D.new.state.char_style.font_size :=
⟨(c8_measure_text fm0 bo0 lm_none Context2D.new.state "").1,
 (c8_measure_text fm0 bo0 lm_none Context2D.new.state "").2 rfl⟩

/-- C9 counterexample: the dash list [0, 0] is non-empty, yet under skia's
documented dash-constructor behavior (all-zero lists are rejected) the
resolved stroke paint carries no dash effect — the claimed iff between a
non-empty list and an installed dash effect fails. -/
theorem c9_counterexample :
  zero_dash_state.line_dash_list ≠ [] ∧
  (paint_for_stroke dash_path_effect_skia zero_dash_state).path_effect = none := by
  constructor
  · simp [zero_dash_state]
  · simp [paint_for_stroke, zero_dash_state, Context2D.new, dash_path_effect_skia]

/-- C9 amended: when the base paint carries no path effect, paint_for_stroke
carries a dash effect exactly when the line dash list is non-empty and the
external dash-effect constructor accepts it; the constructor is invoked
only for non-empty lists, and resolving after clearing the list to the
empty sequence always yields a paint with no dash effect. -/
theorem c9_amended (dpe : List ℚ → ℚ → Option DashEffect) (s : State)
    (h : s.paint.path_effect = none) :
  ((paint_for_stroke dpe s).path_effect
      = if s.line_dash_list.isEmpty then none
        else dpe s.line_dash_list s.line_dash_offset) ∧
  ((paint_for_stroke dpe s).path_effect.isSome = true ↔
      s.line_dash_list ≠ [] ∧ (dpe s.line_dash_list s.line_dash_offset).isSome = true) ∧
  (paint_for_stroke dpe { s with line_dash_list := [] }).path_effect = none := by
  have hmain : (paint_for_stroke dpe s).path_effect
      = if s.line_dash_list.isEmpty then none
        else dpe s.line_dash_list s.line_dash_offset := by
    cases hd : s.line_dash_list with
    | nil =>
      simp only [paint_for_stroke, hd]
      cases hs : s.stroke_style <;> simp [hs, h]
    | cons a t =>
      simp only [paint_for_stroke, hd]
      cases hs : s.stroke_style <;> simp [hs, h]
  refine ⟨hmain, ?_, ?_⟩
  · rw [hmain]
    cases hd : s.line_dash_list <;> simp [hd]
  · simp only [paint_for_stroke]
    cases hs : s.stroke_style <;> simp [hs, h]

/-- C9 amended, witness: under skia's documented constructor behavior a
[1, 2] dash list yields a dash effect; clearing the list yields none. -/
theorem c9_witness :
  (paint_for_stroke dash_path_effect_skia dash_state).path_effect.isSome = true ∧
  (paint_for_stroke dash_path_effect_skia
      { dash_state with line_dash_list := [] }).path_effect = none :=
⟨(c9_amended dash_path_effect_skia dash_state rfl).2.1.mpr
    ⟨by simp [dash_state], by norm_num [dash_state, Context2D.new, dash_path_effect_skia]⟩,
 (c9_amended dash_path_effect_skia dash_state rfl).2.2⟩

/-- C10: when the shadow condition holds but the drop-shadow filter
constructor fails, paint_for_shadow still returns some paint — an
unmodified clone of the primary paint — so draw_path draws the same
geometry twice with the primary paint. -/
theorem c10_filter_failure_falls_back (s : State) (base : Paint) (path : SkPath)
    (stack : List State) (surf : Surface)
    (h : (color_with_alpha s s.shadow_color).a > 0 ∧
      ¬(s.shadow_blur = 0 ∧ s.shadow_offset.is_zero = true)) :
  paint_for_shadow (fun _ _ _ => none) s base = some base ∧
  draw_path (fun _ _ _ => none) ⟨some surf, path, stack, s⟩ base =
    [DrawEvent.path path base, DrawEvent.path path base] := by
  have hp : paint_for_shadow (fun _ _ _ => none) s base = some base := by
    simp [paint_for_shadow, h]
  exact ⟨hp, by simp [draw_path, hp]⟩

/-- C10, witness: opaque shadow color with offset (5, 5) and a failing
filter constructor. -/
theorem c10_witness :
  paint_for_shadow (fun _ _ _ => none) shadow_state p0 = some p0 ∧
  draw_path (fun _ _ _ => none) ⟨some ⟨0⟩, SkPath.new, [], shadow_state⟩ p0 =
    [DrawEvent.path SkPath.new p0, DrawEvent.path SkPath.new p0] :=
c10_filter_failure_falls_back shadow_state p0 SkPath.new [] ⟨0⟩ shadow_state_visible



